import Mathlib

/-!
Verification of the upbit_bollinger_squeeze trading monitor/backtest core.

The definitions below are shallow embeddings of the Python source:
* `upbit_realtime_monitor.py` — `should_send_alert`, `calculate_indicators`,
  `check_signals`;
* `upbit_backtest_strategy.py` — `calculate_technical_indicators`,
  `_execute_backtest`, `_analyze_trades`, `_setup_parameters`;
* `main.py` — the CLI entry points `run_monitor` / `run_monitor_default`.

Prices, timestamps and money are modelled as exact rationals (`ℚ`).  A pandas
value that can be NaN is modelled as `Option ℚ` with `none` for NaN; a pandas
comparison whose operand is NaN evaluates to `False`, which the `…OptB`
helpers reproduce.
-/

namespace UpbitSqueeze

/-! ## Alert deduplicator (`upbit_realtime_monitor.py`, `should_send_alert`) -/

/-- The `self.last_alerts` dict: key → last-fired wall-clock time.
Modelled as an association list where the most recent binding comes first. -/
abbrev AlertState := List (String × ℚ)

/-- Dict lookup `self.last_alerts[key]` (`none` = key absent). -/
def lookupAlert (st : AlertState) (k : String) : Option ℚ :=
  match st with
  | [] => none
  | (k', t) :: rest => if k' = k then some t else lookupAlert rest k

/-- Dict assignment `self.last_alerts[key] = current_time` (overwrite). -/
def recordAlert (st : AlertState) (k : String) (t : ℚ) : AlertState :=
  (k, t) :: st

/-- `self.alert_cooldown = 3600` (seconds). -/
def alertCooldown : ℚ := 3600

/-- `key = f"{symbol}_{signal_type}"`. -/
def alertKey (symbol sigType : String) : String := symbol ++ "_" ++ sigType

/-- `should_send_alert`: returns whether to fire, together with the updated
`last_alerts` state.  Source:

    key = f"{symbol}_{signal_type}"
    current_time = time.time()
    if key in self.last_alerts:
      if current_time - self.last_alerts[key] < self.alert_cooldown:
        return False
    self.last_alerts[key] = current_time
    return True
-/
def shouldSendAlert (st : AlertState) (k : String) (now : ℚ) : Bool × AlertState :=
  match lookupAlert st k with
  | some last =>
      if now - last < alertCooldown then (false, st)
      else (true, recordAlert st k now)
  | none => (true, recordAlert st k now)

theorem lookupAlert_recordAlert (st : AlertState) (k : String) (t : ℚ) :
    lookupAlert (recordAlert st k t) k = some t := by
  simp [recordAlert, lookupAlert]

theorem shouldSendAlert_of_none {st : AlertState} {k : String} (t : ℚ)
    (h : lookupAlert st k = none) :
    shouldSendAlert st k t = (true, recordAlert st k t) := by
  simp [shouldSendAlert, h]

theorem shouldSendAlert_of_lt {st : AlertState} {k : String} {t last : ℚ}
    (h : lookupAlert st k = some last) (hc : t - last < alertCooldown) :
    shouldSendAlert st k t = (false, st) := by
  simp [shouldSendAlert, h, hc]

theorem shouldSendAlert_of_ge {st : AlertState} {k : String} {t last : ℚ}
    (h : lookupAlert st k = some last) (hc : alertCooldown ≤ t - last) :
    shouldSendAlert st k t = (true, recordAlert st k t) := by
  simp [shouldSendAlert, h, not_lt.mpr hc]

theorem shouldSendAlert_fired_lookup {st : AlertState} {k : String} {t : ℚ}
    (h : (shouldSendAlert st k t).1 = true) :
    lookupAlert (shouldSendAlert st k t).2 k = some t := by
  cases hl : lookupAlert st k with
  | none => rw [shouldSendAlert_of_none t hl]; exact lookupAlert_recordAlert st k t
  | some last =>
      by_cases hc : t - last < alertCooldown
      · rw [shouldSendAlert_of_lt hl hc] at h; cases h
      · rw [shouldSendAlert_of_ge hl (not_lt.mp hc)]
        exact lookupAlert_recordAlert st k t

/-- C1: a `should_send_alert` call fires (and overwrites the stored time with
`now`) iff no record exists for the key or at least the 3600 s cooldown has
elapsed; otherwise it returns `false` and leaves the state unchanged.
Consequently, after a successful call, a second call for the same key less
than 3600 s later returns `false`, and one at least 3600 s later returns
`true`. -/
theorem shouldSendAlert_spec :
    (∀ (st : AlertState) (k : String) (t : ℚ),
      ((shouldSendAlert st k t).1 = true ↔
        lookupAlert st k = none ∨
          ∃ last, lookupAlert st k = some last ∧ alertCooldown ≤ t - last)) ∧
    (∀ (st : AlertState) (k : String) (t : ℚ),
      (shouldSendAlert st k t).1 = true →
        lookupAlert (shouldSendAlert st k t).2 k = some t) ∧
    (∀ (st : AlertState) (k : String) (t : ℚ),
      (shouldSendAlert st k t).1 = false → (shouldSendAlert st k t).2 = st) ∧
    (∀ (st : AlertState) (k : String) (t₁ t₂ : ℚ),
      (shouldSendAlert st k t₁).1 = true →
        (t₂ - t₁ < alertCooldown →
          (shouldSendAlert (shouldSendAlert st k t₁).2 k t₂).1 = false) ∧
        (alertCooldown ≤ t₂ - t₁ →
          (shouldSendAlert (shouldSendAlert st k t₁).2 k t₂).1 = true)) := by
  refine ⟨?_, fun st k t h => shouldSendAlert_fired_lookup h, ?_, ?_⟩
  · intro st k t
    cases hl : lookupAlert st k with
    | none =>
        rw [shouldSendAlert_of_none t hl]
        simp
    | some last =>
        by_cases hc : t - last < alertCooldown
        · rw [shouldSendAlert_of_lt hl hc]
          refine iff_of_false (by simp) ?_
          rintro (h | ⟨l, hl', hge⟩)
          · exact Option.noConfusion h
          · cases Option.some.inj hl'
            linarith
        · rw [shouldSendAlert_of_ge hl (not_lt.mp hc)]
          exact iff_of_true rfl (Or.inr ⟨last, rfl, not_lt.mp hc⟩)
  · intro st k t h
    cases hl : lookupAlert st k with
    | none => rw [shouldSendAlert_of_none t hl] at h; cases h
    | some last =>
        by_cases hc : t - last < alertCooldown
        · rw [shouldSendAlert_of_lt hl hc]
        · rw [shouldSendAlert_of_ge hl (not_lt.mp hc)] at h; cases h
  · intro st k t₁ t₂ h₁
    have hrec := shouldSendAlert_fired_lookup h₁
    constructor
    · intro hlt
      rw [shouldSendAlert_of_lt hrec hlt]
    · intro hge
      rw [shouldSendAlert_of_ge hrec hge]

/-- Witness for C1 at concrete inputs: a first call fires from the empty
state; a second call 100 s later is suppressed; a second call exactly
3600 s later fires again. -/
theorem shouldSendAlert_spec_witness :
    (shouldSendAlert [] (alertKey "KRW-BTC" "buy") 0).1 = true ∧
    (shouldSendAlert (shouldSendAlert [] (alertKey "KRW-BTC" "buy") 0).2
      (alertKey "KRW-BTC" "buy") 100).1 = false ∧
    (shouldSendAlert (shouldSendAlert [] (alertKey "KRW-BTC" "buy") 0).2
      (alertKey "KRW-BTC" "buy") 3600).1 = true := by
  have hfirst : (shouldSendAlert [] (alertKey "KRW-BTC" "buy") 0).1 = true :=
    (shouldSendAlert_spec.1 [] (alertKey "KRW-BTC" "buy") 0).mpr (Or.inl rfl)
  have hpair := shouldSendAlert_spec.2.2.2 [] (alertKey "KRW-BTC" "buy") 0 3600 hfirst
  have hpair' := shouldSendAlert_spec.2.2.2 [] (alertKey "KRW-BTC" "buy") 0 100 hfirst
  exact ⟨hfirst, hpair'.1 (by norm_num [alertCooldown]),
    hpair.2 (by norm_num [alertCooldown])⟩

/-! ## Indicator engine

Embeds the rolling-window computations shared by
`calculate_technical_indicators` (`upbit_backtest_strategy.py`) and
`calculate_indicators` / `check_signals` (`upbit_realtime_monitor.py`).
`xs.rolling(n)` at row `i` is defined (non-NaN) iff `n ≤ i + 1`, and then
aggregates the trailing window `xs[i-n+1 .. i]`. -/

/-- `self.bb_period = 20`. -/
def bbPeriod : ℕ := 20

/-- `self.bb_std_multiplier = 2.0`. -/
def bbStdMultiplier : ℚ := 2

/-- `self.rsi_period = 14`. -/
def rsiPeriod : ℕ := 14

/-- The trailing window `xs[i-n+1 .. i]` ending at index `i`. -/
def windowEnd (xs : List ℚ) (i n : ℕ) : List ℚ :=
  (xs.take (i + 1)).drop (i + 1 - n)

/-- Arithmetic mean of a list (pandas `mean`). -/
def listMean (xs : List ℚ) : ℚ := xs.sum / xs.length

/-- Sum of squared deviations from the mean. -/
def sumSqDev (xs : List ℚ) : ℚ :=
  (xs.map (fun x => (x - listMean xs) ^ 2)).sum

/-- The variance computed by pandas `rolling(n).std()`: Bessel-corrected,
divisor `N - 1` (pandas default `ddof=1`).  The std itself is the square
root of this value and is kept relational (see `IsStdAt`) because it is
irrational in general. -/
def sampleVar (xs : List ℚ) : ℚ := sumSqDev xs / ((xs.length : ℚ) - 1)

/-- Modelled from the spec: "`stddev[i]` = population stddev over same
window", i.e. variance with divisor `N`.  Used only to compare the spec's
population-stddev wording against the source's `rolling(20).std()`. -/
def popVarSpec (xs : List ℚ) : ℚ := sumSqDev xs / (xs.length : ℚ)

/-- `close.rolling(n).mean()` at row `i` (`none` = NaN). -/
def rollingMeanAt (xs : List ℚ) (n i : ℕ) : Option ℚ :=
  if i < xs.length ∧ n ≤ i + 1 then some (listMean (windowEnd xs i n)) else none

/-- The squared value of `close.rolling(n).std()` at row `i` (`none` = NaN). -/
def rollingVarAt (xs : List ℚ) (n i : ℕ) : Option ℚ :=
  if i < xs.length ∧ n ≤ i + 1 then some (sampleVar (windowEnd xs i n)) else none

/-- `σ` is the value of the `STD` column at row `i`: nonnegative square root
of the `ddof=1` rolling variance. -/
def IsStdAt (closes : List ℚ) (i : ℕ) (σ : ℚ) : Prop :=
  0 ≤ σ ∧ rollingVarAt closes bbPeriod i = some (σ ^ 2)

/-- `Upper_Band = SMA + STD * self.bb_std_multiplier`, as a function of the
`SMA` and `STD` column values. -/
def upperBandOf (sma σ : ℚ) : ℚ := sma + σ * bbStdMultiplier

/-- `Lower_Band = SMA - STD * self.bb_std_multiplier`. -/
def lowerBandOf (sma σ : ℚ) : ℚ := sma - σ * bbStdMultiplier

/-- `Band_Width = (Upper_Band - Lower_Band) / SMA`. -/
def bandWidthOf (sma σ : ℚ) : ℚ := (upperBandOf sma σ - lowerBandOf sma σ) / sma

/-! ### RSI (`delta = close.diff()`, Wilder-style simple rolling means)

`close.diff()` has NaN at index 0; `delta.where(delta > 0, 0)` and
`(-delta.where(delta < 0, 0))` both turn that NaN into `0` (a NaN
comparison is `False`), so the gain/loss series start with an artificial
`0` and are NaN-free. -/

/-- The per-row price changes seen by the gain/loss pipeline: `0` at index 0
(the `diff()` NaN after `where`), then `close[i] - close[i-1]`. -/
def deltasOf (closes : List ℚ) : List ℚ :=
  0 :: (closes.zip closes.tail).map (fun p => p.2 - p.1)

/-- `delta.where(delta > 0, 0)` per row. -/
def gainsOf (closes : List ℚ) : List ℚ :=
  (deltasOf closes).map (fun d => max d 0)

/-- `(-delta.where(delta < 0, 0))` per row. -/
def lossesOf (closes : List ℚ) : List ℚ :=
  (deltasOf closes).map (fun d => max (-d) 0)

/-- `100 - 100 / (1 + gain/loss)` under IEEE evaluation, in exact arithmetic
(`none` = NaN): `loss = 0, gain ≠ 0` gives `rs = ∞` hence RSI `= 100`;
`loss = 0, gain = 0` gives `rs = NaN` hence RSI NaN. -/
def rsiFromGainLoss (gain loss : ℚ) : Option ℚ :=
  if loss = 0 then (if gain = 0 then none else some 100)
  else some (100 - 100 / (1 + gain / loss))

/-- The `RSI` column at row `i` (`none` = NaN): rolling 14-row means of the
gain/loss series fed through `rsiFromGainLoss`. -/
def rsiAt (closes : List ℚ) (i : ℕ) : Option ℚ :=
  if i < closes.length ∧ rsiPeriod ≤ i + 1 then
    rsiFromGainLoss (listMean (windowEnd (gainsOf closes) i rsiPeriod))
      (listMean (windowEnd (lossesOf closes) i rsiPeriod))
  else none

/-! ### Signal evaluation rules

Row-level rules; `Option ℚ` inputs are column values that may be NaN, and a
pandas comparison with a NaN operand is `False`. -/

/-- `x >= c` where `x` may be NaN. -/
def geOptB (x : Option ℚ) (c : ℚ) : Bool :=
  match x with
  | some v => decide (c ≤ v)
  | none => false

/-- `x <= c` where `x` may be NaN. -/
def leOptB (x : Option ℚ) (c : ℚ) : Bool :=
  match x with
  | some v => decide (v ≤ c)
  | none => false

/-- `x > c` where `x` may be NaN. -/
def gtOptB (x : Option ℚ) (c : ℚ) : Bool :=
  match x with
  | some v => decide (c < v)
  | none => false

/-- `x < c` where `x` may be NaN. -/
def ltOptB (x : Option ℚ) (c : ℚ) : Bool :=
  match x with
  | some v => decide (v < c)
  | none => false

/-- Strategy profiles of `_setup_parameters` (`upbit_backtest_strategy.py`). -/
inductive StrategyMode where
  | conservative
  | balanced
  | aggressive
deriving DecidableEq

/-- `self.bb_sell_threshold` per profile (0.8 / 0.75 / 0.7). -/
def sell50Threshold : StrategyMode → ℚ
  | .conservative => 8 / 10
  | .balanced => 75 / 100
  | .aggressive => 7 / 10

/-- `self.rsi_overbought` per profile (70 / 65 / 60). -/
def rsiOverbought : StrategyMode → ℚ
  | .conservative => 70
  | .balanced => 65
  | .aggressive => 60

/-- Backtest `Sell_50_Signal` (`calculate_technical_indicators`, line 258):
`data['BB_Position'] >= 0.85` — the hardcoded 0.85, not the profile's
`bb_sell_threshold`. -/
def sell50Backtest (bbPos : Option ℚ) : Bool := geOptB bbPos (85 / 100)

/-- Monitor `Sell_50_Signal` (`calculate_indicators`, line 486):
`(BB_Position >= 0.8) | (abs(BB_Position - 0.5) <= 0.1)`. -/
def sell50Monitor (bbPos : Option ℚ) : Bool :=
  geOptB bbPos (8 / 10) ||
    (match bbPos with
     | some p => decide (|p - 1 / 2| ≤ 1 / 10)
     | none => false)

/-- Backtest `Buy_Signal` (`calculate_technical_indicators`, lines 250-255):
current-row `Volatility_Squeeze & (close > Upper_Band) & (Volume_Ratio > 1.2)
& (RSI > 50) & (RSI < 80)`. -/
def buyBacktest (squeeze : Bool) (close upper : ℚ) (vr rsi : Option ℚ) : Bool :=
  squeeze && decide (upper < close) && gtOptB vr (12 / 10) &&
    gtOptB rsi 50 && ltOptB rsi 80

/-- Monitor `buy_signal` (`check_signals`, lines 538-554):
`squeeze_breakout and close > Upper_Band and 50 < RSI < 80` where
`squeeze_breakout = prev_squeeze and (close > upper or close < lower) and
Volume_Ratio > 1.2`; `prev_squeeze` is the *previous* row's `BB_Squeeze`. -/
def buyCheckSignals (prevSqueeze : Bool) (close upper lower : ℚ)
    (vr rsi : Option ℚ) : Bool :=
  (prevSqueeze && (decide (upper < close) || decide (close < lower)) &&
      gtOptB vr (12 / 10)) &&
    decide (upper < close) && (gtOptB rsi 50 && ltOptB rsi 80)

/-! ## Backtest simulator (`upbit_backtest_strategy.py`, `_execute_backtest`) -/

/-- Trade actions recorded in the trade log (`'BUY'`, `'SELL_50%'`,
`'SELL_ALL'`). -/
inductive TradeAction where
  | buy
  | sell50
  | sellAllAct
deriving DecidableEq, Repr

/-- One row of the trade log (the `date` field is dropped; trades are kept
in append order, which is all `_analyze_trades` uses). -/
structure Trade where
  action : TradeAction
  price : ℚ
  coins : ℚ
  value : ℚ
deriving DecidableEq, Repr

/-- One bar as consumed by `_execute_backtest`: the close price and the
precomputed boolean signal columns of that row. -/
structure BtRow where
  price : ℚ
  buySig : Bool
  sell50Sig : Bool
  sellAllSig : Bool
deriving DecidableEq, Repr

/-- Mutable state of the backtest loop: `position` (0 = none, 1 = 50%,
2 = 100%), `cash`, `coins`, and the accumulated trade log. -/
structure BtState where
  position : ℕ
  cash : ℚ
  coins : ℚ
  trades : List Trade
deriving DecidableEq, Repr

/-- One iteration of the `for i in range(len(data))` body of
`_execute_backtest` (the equity-curve bookkeeping, which no claim touches,
is omitted):

    if Buy_Signal and position == 0: buy 100% at close
    elif Sell_50_Signal and position == 2: sell half at close
    elif Sell_All_Signal and position > 0: sell everything at close
-/
def backtestStep (st : BtState) (row : BtRow) : BtState :=
  if row.buySig ∧ st.position = 0 then
    let coins := st.cash / row.price
    { position := 2, cash := 0, coins := coins,
      trades := st.trades ++ [⟨.buy, row.price, coins, st.cash⟩] }
  else if row.sell50Sig ∧ st.position = 2 then
    let sellCoins := st.coins * (1 / 2)
    let sellValue := sellCoins * row.price
    { position := 1, cash := st.cash + sellValue, coins := st.coins - sellCoins,
      trades := st.trades ++ [⟨.sell50, row.price, sellCoins, sellValue⟩] }
  else if row.sellAllSig ∧ 0 < st.position then
    let sellValue := st.coins * row.price
    { position := 0, cash := st.cash + sellValue, coins := 0,
      trades := st.trades ++ [⟨.sellAllAct, row.price, st.coins, sellValue⟩] }
  else st

/-- The state after the main loop, started from
`position = 0, cash = initial_capital, coins = 0, trades = []`. -/
def runBacktestState (initial : ℚ) (rows : List BtRow) : BtState :=
  rows.foldl backtestStep ⟨0, initial, 0, []⟩

/-- `data.iloc[-1]['close']` (the series is nonempty whenever it is used). -/
def lastClose (rows : List BtRow) : ℚ :=
  match rows.getLast? with
  | some r => r.price
  | none => 0

/-- Final cash after the end-of-series mark-to-close:
`if coins > 0: cash += coins * data.iloc[-1]['close']` — note no trade
record is appended. -/
def finalCashOf (initial : ℚ) (rows : List BtRow) : ℚ :=
  let st := runBacktestState initial rows
  if 0 < st.coins then st.cash + st.coins * lastClose rows else st.cash

/-- `total_return = (final_cash - initial_capital) / initial_capital * 100`. -/
def totalReturnOf (initial finalCash : ℚ) : ℚ :=
  (finalCash - initial) / initial * 100

/-! ### `_analyze_trades`: pairing BUYs with subsequent sells -/

/-- One completed round-trip as built by `_analyze_trades` (dates dropped). -/
structure CompletedTrade where
  entryPrice : ℚ
  exitPrice : ℚ
  profitPct : ℚ
  isWinning : Bool
deriving DecidableEq, Repr

/-- The loop body of `_analyze_trades`, carrying the pending `buy_trade`:
a `BUY` replaces the pending buy; a sell with a pending buy appends a
completed trade with `profit_pct = (sell - buy)/buy * 100`, and `SELL_ALL`
additionally clears the pending buy. -/
def analyzeTradesGo (pending : Option Trade) : List Trade → List CompletedTrade
  | [] => []
  | t :: rest =>
    match t.action with
    | .buy => analyzeTradesGo (some t) rest
    | .sell50 =>
        match pending with
        | some b =>
            let pct := (t.price - b.price) / b.price * 100
            ⟨b.price, t.price, pct, decide (0 < pct)⟩ :: analyzeTradesGo (some b) rest
        | none => analyzeTradesGo none rest
    | .sellAllAct =>
        match pending with
        | some b =>
            let pct := (t.price - b.price) / b.price * 100
            ⟨b.price, t.price, pct, decide (0 < pct)⟩ :: analyzeTradesGo none rest
        | none => analyzeTradesGo none rest

/-- `_analyze_trades(trades)`. -/
def analyzeTrades (trades : List Trade) : List CompletedTrade :=
  analyzeTradesGo none trades

/-- `total_trades = len(completed_trades)`. -/
def totalTradesOf (trades : List Trade) : ℕ := (analyzeTrades trades).length

/-- `win_rate = winning_trades / total_trades * 100` (0 when no trades). -/
def winRateOf (trades : List Trade) : ℚ :=
  let cs := analyzeTrades trades
  if cs.length = 0 then 0
  else ((cs.filter (·.isWinning)).length : ℚ) / cs.length * 100

/-! ## CLI entry points (`main.py`) and Python attribute lookup -/

/-- The method names defined on `UpbitRealTimeVolatilityMonitor`
(`upbit_realtime_monitor.py`, class body). -/
def monitorMethods : List String :=
  ["__init__", "start_command", "ticker_command", "status_command",
   "format_analysis_message", "send_telegram_alert", "send_heartbeat",
   "start_heartbeat", "_heartbeat_loop", "calculate_indicators",
   "get_crypto_data", "check_signals", "should_send_alert",
   "format_alert_message", "process_signals", "scan_single_crypto",
   "_scan_all_cryptos_auto", "_run_telegram_bot", "_auto_monitoring_loop",
   "_send_status_summary", "start_monitoring", "stop_monitoring",
   "get_monitoring_statistics", "get_current_status", "add_to_watchlist",
   "remove_from_watchlist", "get_market_overview", "manual_scan",
   "test_telegram_connection"]

/-- Python attribute lookup on the monitor class: `some` when the method
exists, `none` meaning the access raises `AttributeError` (the class
defines no `__getattr__`). -/
def resolveMethod (methods : List String) (name : String) : Option String :=
  if methods.contains name then some name else none

/-- The method both `run_monitor` (`main.py` line 410) and
`run_monitor_default` (`main.py` line 136) invoke on the monitor:
`monitor.run_continuous_monitoring(scan_interval)`. -/
def runMonitorCallee : String := "run_continuous_monitoring"

/-! ## Claim theorems -/

/-- C3 counterexample: under the conservative profile the claim says sell_50
fires at `bb_position = 0.8` (its threshold), but the backtest signal uses a
hardcoded 0.85 and does not fire; and the monitor's indicator signal fires at
`bb_position = 0.5` (below every profile threshold) through its
`|BB_Position - 0.5| <= 0.1` disjunct. -/
theorem sell50_threshold_cex :
    sell50Backtest (some (8 / 10)) = false ∧
    sell50Threshold .conservative ≤ 8 / 10 ∧
    sell50Monitor (some (1 / 2)) = true ∧
    (1 / 2 : ℚ) < sell50Threshold .aggressive := by
  refine ⟨?_, ?_, ?_, ?_⟩
  · simp only [sell50Backtest, geOptB, decide_eq_false_iff_not]
    norm_num
  · norm_num [sell50Threshold]
  · simp only [sell50Monitor, geOptB]
    rw [decide_eq_false (by norm_num : ¬((8 : ℚ) / 10 ≤ 1 / 2)),
      decide_eq_true (show |(1 : ℚ) / 2 - 1 / 2| ≤ 1 / 10 by norm_num)]
    rfl
  · norm_num [sell50Threshold]

/-- C3 (amended): the backtest `Sell_50_Signal` fires iff `bb_position ≥
0.85`, independently of the strategy profile (whose `bb_sell_threshold` is
configured but unused); the monitor's `calculate_indicators` signal fires iff
`bb_position ≥ 0.8` or `|bb_position − 0.5| ≤ 0.1`; an undefined
`bb_position` never fires.  The backtest condition is at least as strict as
every profile threshold. -/
theorem sell50_rule_spec :
    (∀ p : ℚ, sell50Backtest (some p) = decide ((85 : ℚ) / 100 ≤ p)) ∧
    sell50Backtest none = false ∧
    (∀ p : ℚ, sell50Monitor (some p) =
      (decide ((8 : ℚ) / 10 ≤ p) || decide (|p - 1 / 2| ≤ 1 / 10))) ∧
    sell50Monitor none = false ∧
    (∀ (m : StrategyMode) (p : ℚ),
      sell50Backtest (some p) = true → sell50Threshold m ≤ p) := by
  refine ⟨fun p => rfl, rfl, fun p => rfl, rfl, ?_⟩
  intro m p h
  have hp : (85 : ℚ) / 100 ≤ p := by
    simpa [sell50Backtest, geOptB] using h
  cases m <;> simp [sell50Threshold] <;> linarith

/-- Witness for the amended C3 at a concrete input: `bb_position = 0.9`
fires the backtest signal and indeed lies above the conservative profile
threshold. -/
theorem sell50_rule_spec_witness :
    sell50Backtest (some (9 / 10)) = true ∧
    sell50Threshold .conservative ≤ 9 / 10 := by
  have hfire : sell50Backtest (some (9 / 10)) = true := by
    simp only [sell50Backtest, geOptB, decide_eq_true_eq]
    norm_num
  exact ⟨hfire, sell50_rule_spec.2.2.2.2 .conservative (9 / 10) hfire⟩

/-- C4 counterexample: at a bar whose *previous* bar was in squeeze but whose
current bar is not, with `close = 110 > upper = 100`, `volume_ratio = 2 >
1.2` and `rsi = 60 ∈ (50, 80)`, the claim says buy fires, and the monitor's
`check_signals` rule does fire — but the backtest `Buy_Signal` (one of the
claim's cited implementations) reads the *current* row's squeeze flag and
stays `false`. -/
theorem buy_prev_squeeze_cex :
    buyBacktest false 110 100 (some 2) (some 60) = false ∧
    buyCheckSignals true 110 100 80 (some 2) (some 60) = true := by
  constructor
  · simp [buyBacktest]
  · simp only [buyCheckSignals, gtOptB, ltOptB]
    rw [decide_eq_true (by norm_num : (100 : ℚ) < 110),
      decide_eq_true (by norm_num : (12 : ℚ) / 10 < 2),
      decide_eq_true (by norm_num : (50 : ℚ) < 60),
      decide_eq_true (by norm_num : (60 : ℚ) < 80)]
    rfl

/-- C4 (amended): the monitor's `check_signals` buy fires iff the previous
bar was in squeeze, the current close is above the upper band, volume ratio
exceeds 1.2 and RSI is strictly between 50 and 80 (the lower-band disjunct
of `squeeze_breakout` is absorbed by the `close > Upper_Band` conjunct); the
backtest `Buy_Signal` is the same condition except that it reads the
*current* bar's squeeze flag. -/
theorem buy_rules_spec :
    (∀ (prevSq : Bool) (c u l : ℚ) (vr rsi : Option ℚ),
      buyCheckSignals prevSq c u l vr rsi =
        (prevSq && decide (u < c) && gtOptB vr (12 / 10) &&
          gtOptB rsi 50 && ltOptB rsi 80)) ∧
    (∀ (sq : Bool) (c u : ℚ) (vr rsi : Option ℚ),
      buyBacktest sq c u vr rsi =
        (sq && decide (u < c) && gtOptB vr (12 / 10) &&
          gtOptB rsi 50 && ltOptB rsi 80)) := by
  refine ⟨?_, fun sq c u vr rsi => rfl⟩
  intro prevSq c u l vr rsi
  cases hd : decide (u < c) with
  | false => simp [buyCheckSignals, hd]
  | true => simp [buyCheckSignals, hd, Bool.and_assoc]

/-- C9: the CLI entry points `run_monitor` and `run_monitor_default` invoke
`monitor.run_continuous_monitoring(...)`, but the monitor class defines no
method of that name, so Python attribute lookup fails (`AttributeError`);
the class's actual scheduling entry point `start_monitoring` does exist. -/
theorem run_monitor_attribute_error :
    resolveMethod monitorMethods runMonitorCallee = none ∧
    monitorMethods.contains "start_monitoring" = true := by
  exact ⟨by decide, by decide⟩

/-- C5 counterexample: on a constant 15-bar series every price change is 0,
so the rolling average loss is 0 — but the rolling average gain is also 0,
`gain/loss` is `0/0 = NaN`, and the `RSI` column is NaN (undefined), not
100: the division is not guarded and the claim "rsi equals exactly 100
(never undefined) whenever average loss is zero" fails. -/
theorem rsi_zero_loss_cex :
    listMean (windowEnd (lossesOf
      [100, 100, 100, 100, 100, 100, 100, 100, 100, 100, 100, 100, 100, 100, 100])
      14 14) = 0 ∧
    rsiAt
      [100, 100, 100, 100, 100, 100, 100, 100, 100, 100, 100, 100, 100, 100, 100]
      14 = none := by
  constructor
  · norm_num [listMean, windowEnd, lossesOf, deltasOf]
  · norm_num [rsiAt, rsiPeriod, rsiFromGainLoss, listMean, windowEnd,
      lossesOf, gainsOf, deltasOf]

/-- C5 (amended): with a full 14-change window, `RSI = 100 - 100/(1 +
gain/loss)` where `gain`/`loss` are the rolling means of the positive and
negative close-to-close changes; when the average loss is 0 and the average
gain is positive, RSI is exactly 100; but when average loss and average
gain are both 0 (flat window) RSI is undefined (NaN), not 100. -/
theorem rsi_formula_spec (closes : List ℚ) (i : ℕ) (gain loss : ℚ)
    (hi : i < closes.length) (hn : rsiPeriod ≤ i + 1)
    (hg : gain = listMean (windowEnd (gainsOf closes) i rsiPeriod))
    (hl : loss = listMean (windowEnd (lossesOf closes) i rsiPeriod)) :
    (loss ≠ 0 → rsiAt closes i = some (100 - 100 / (1 + gain / loss))) ∧
    (loss = 0 → gain ≠ 0 → rsiAt closes i = some 100) ∧
    (loss = 0 → gain = 0 → rsiAt closes i = none) := by
  subst hg
  subst hl
  unfold rsiAt
  rw [if_pos ⟨hi, hn⟩]
  unfold rsiFromGainLoss
  refine ⟨fun h => ?_, fun h h' => ?_, fun h h' => ?_⟩
  · rw [if_neg h]
  · rw [if_pos h, if_neg h']
  · rw [if_pos h, if_pos h']

/-- Witness for the amended C5 at a concrete input: on a strictly rising
15-bar series the average loss is 0, the average gain is 1, and RSI is
exactly 100. -/
theorem rsi_formula_spec_witness :
    rsiAt
      [100, 101, 102, 103, 104, 105, 106, 107, 108, 109, 110, 111, 112, 113, 114]
      14 = some 100 := by
  have h := rsi_formula_spec
    [100, 101, 102, 103, 104, 105, 106, 107, 108, 109, 110, 111, 112, 113, 114]
    14 1 0 (by norm_num) (by norm_num [rsiPeriod])
    (by norm_num [listMean, windowEnd, gainsOf, deltasOf, rsiPeriod])
    (by norm_num [listMean, windowEnd, lossesOf, deltasOf, rsiPeriod])
  exact h.2.1 rfl one_ne_zero

/-- C6 counterexample: for the 20-bar window of ten closes at 90 followed by
ten at 110, pandas `rolling(20).std()` squares to the Bessel-corrected
(divisor N−1 = 19) value 2000/19 ≈ 105.26, while the population variance
(divisor N = 20) is 100 — so the code's stddev is the sample standard
deviation, not the population standard deviation the claim states. -/
theorem stddev_population_cex :
    rollingVarAt
      [90, 90, 90, 90, 90, 90, 90, 90, 90, 90,
       110, 110, 110, 110, 110, 110, 110, 110, 110, 110] 20 19 =
      some (2000 / 19) ∧
    popVarSpec (windowEnd
      [90, 90, 90, 90, 90, 90, 90, 90, 90, 90,
       110, 110, 110, 110, 110, 110, 110, 110, 110, 110] 19 20) = 100 ∧
    rollingVarAt
      [90, 90, 90, 90, 90, 90, 90, 90, 90, 90,
       110, 110, 110, 110, 110, 110, 110, 110, 110, 110] 20 19 ≠
      some (popVarSpec (windowEnd
        [90, 90, 90, 90, 90, 90, 90, 90, 90, 90,
         110, 110, 110, 110, 110, 110, 110, 110, 110, 110] 19 20)) := by
  refine ⟨?_, ?_, ?_⟩
  · norm_num [rollingVarAt, sampleVar, sumSqDev, listMean, windowEnd]
  · norm_num [popVarSpec, sumSqDev, listMean, windowEnd]
  · norm_num [rollingVarAt, popVarSpec, sampleVar, sumSqDev, listMean, windowEnd]

theorem windowEnd_length (xs : List ℚ) (i n : ℕ)
    (hi : i < xs.length) (hn : n ≤ i + 1) :
    (windowEnd xs i n).length = n := by
  simp only [windowEnd, List.length_drop, List.length_take]
  omega

theorem sampleVar_eq_popVar (xs : List ℚ) (h : xs.length = 20) :
    sampleVar xs = 20 / 19 * popVarSpec xs := by
  rw [sampleVar, popVarSpec, h]
  push_cast
  ring

/-- C6 (amended): with a full 20-bar window, `SMA[i]` is the arithmetic mean
of `close[i-19..i]`, and the square of the `STD` column is the
Bessel-corrected sample variance (divisor N−1 = 19), i.e. 20/19 times the
population variance of the window — not the population variance itself. -/
theorem bollinger_window_spec (closes : List ℚ) (i : ℕ) (m v : ℚ)
    (hm : rollingMeanAt closes bbPeriod i = some m)
    (hv : rollingVarAt closes bbPeriod i = some v) :
    m = listMean (windowEnd closes i bbPeriod) ∧
    v = 20 / 19 * popVarSpec (windowEnd closes i bbPeriod) := by
  unfold rollingMeanAt at hm
  unfold rollingVarAt at hv
  by_cases h : i < closes.length ∧ bbPeriod ≤ i + 1
  · rw [if_pos h] at hm hv
    have hlen : (windowEnd closes i bbPeriod).length = 20 :=
      windowEnd_length closes i bbPeriod h.1 h.2
    refine ⟨(Option.some.inj hm).symm, ?_⟩
    rw [(Option.some.inj hv).symm]
    exact sampleVar_eq_popVar _ hlen
  · rw [if_neg h] at hm
    cases hm

/-- Witness for the amended C6 at a concrete input: a constant 20-bar window
has mean 100 and both variances 0. -/
theorem bollinger_window_spec_witness :
    (100 : ℚ) = listMean (windowEnd
      [100, 100, 100, 100, 100, 100, 100, 100, 100, 100,
       100, 100, 100, 100, 100, 100, 100, 100, 100, 100] 19 bbPeriod) ∧
    (0 : ℚ) = 20 / 19 * popVarSpec (windowEnd
      [100, 100, 100, 100, 100, 100, 100, 100, 100, 100,
       100, 100, 100, 100, 100, 100, 100, 100, 100, 100] 19 bbPeriod) := by
  exact bollinger_window_spec
    [100, 100, 100, 100, 100, 100, 100, 100, 100, 100,
     100, 100, 100, 100, 100, 100, 100, 100, 100, 100] 19 100 0
    (by norm_num [rollingMeanAt, bbPeriod, listMean, windowEnd])
    (by norm_num [rollingVarAt, bbPeriod, sampleVar, sumSqDev, listMean, windowEnd])

theorem listMean_pos (xs : List ℚ) (hne : xs ≠ [])
    (hpos : ∀ x ∈ xs, 0 < x) : 0 < listMean xs := by
  unfold listMean
  have hsum : 0 < xs.sum := List.sum_pos xs hpos hne
  have hlen : (0 : ℚ) < xs.length := by
    have : 0 < xs.length := List.length_pos.mpr hne
    exact_mod_cast this
  exact div_pos hsum hlen

/-- C8: at every bar with a defined indicator row over positive prices,
`Lower_Band ≤ SMA ≤ Upper_Band` (the STD value is nonnegative), and
`Band_Width ≥ 0`. -/
theorem bollinger_band_invariants (closes : List ℚ) (i : ℕ) (m σ : ℚ)
    (hm : rollingMeanAt closes bbPeriod i = some m)
    (hpos : ∀ c ∈ windowEnd closes i bbPeriod, 0 < c)
    (hσ : IsStdAt closes i σ) :
    lowerBandOf m σ ≤ m ∧ m ≤ upperBandOf m σ ∧ 0 ≤ bandWidthOf m σ := by
  unfold rollingMeanAt at hm
  by_cases h : i < closes.length ∧ bbPeriod ≤ i + 1
  case neg => rw [if_neg h] at hm; cases hm
  rw [if_pos h] at hm
  have hσ0 : 0 ≤ σ := hσ.1
  have hmul : 0 ≤ σ * bbStdMultiplier :=
    mul_nonneg hσ0 (by norm_num [bbStdMultiplier])
  have hwne : windowEnd closes i bbPeriod ≠ [] := by
    intro hnil
    have hlen := windowEnd_length closes i bbPeriod h.1 h.2
    rw [hnil] at hlen
    simp [bbPeriod] at hlen
  have hm0 : 0 < m := by
    rw [← Option.some.inj hm]
    exact listMean_pos _ hwne hpos
  refine ⟨?_, ?_, ?_⟩
  · unfold lowerBandOf
    linarith
  · unfold upperBandOf
    linarith
  · unfold bandWidthOf upperBandOf lowerBandOf
    have hnum : m + σ * bbStdMultiplier - (m - σ * bbStdMultiplier) =
        σ * bbStdMultiplier * 2 := by ring
    rw [hnum]
    exact div_nonneg (by linarith) (le_of_lt hm0)

/-- Witness for C8 at a concrete input: the constant window at 100 with
STD value 0 satisfies the band ordering and nonnegative band width. -/
theorem bollinger_band_invariants_witness :
    lowerBandOf 100 0 ≤ 100 ∧ (100 : ℚ) ≤ upperBandOf 100 0 ∧
    0 ≤ bandWidthOf 100 0 := by
  exact bollinger_band_invariants
    [100, 100, 100, 100, 100, 100, 100, 100, 100, 100,
     100, 100, 100, 100, 100, 100, 100, 100, 100, 100] 19 100 0
    (by norm_num [rollingMeanAt, bbPeriod, listMean, windowEnd])
    (by norm_num [windowEnd, bbPeriod])
    ⟨le_refl 0,
      by norm_num [rollingVarAt, bbPeriod, sampleVar, sumSqDev, listMean, windowEnd]⟩

/-- C2 counterexample: a BUY at bar 0 puts the position at FULL; at bar 1
both `Sell_50_Signal` and `Sell_All_Signal` are true, the position (FULL) is
above FLAT, yet the ordered `elif` chain applies SELL_50 — not SELL_ALL as
the claim states — leaving the position at HALF with coins still held. -/
theorem sell_precedence_cex :
    ((runBacktestState 1000000
      [⟨100, true, false, false⟩, ⟨150, false, true, true⟩]).trades.map
        (fun t => t.action)) = [.buy, .sell50] ∧
    (runBacktestState 1000000
      [⟨100, true, false, false⟩, ⟨150, false, true, true⟩]).position = 1 := by
  constructor <;>
    norm_num [runBacktestState, backtestStep]

/-- C2 (amended): in the backtest `elif` chain, buy applies only from FLAT;
when `sell_50` fires at FULL it is applied even when `sell_all` also fires
(sell_50 is checked first, so sell_50 — not sell_all — takes precedence at
FULL); sell_all applies at HALF; and from any position above FLAT no BUY
trade is ever recorded. -/
theorem backtestStep_priority (st : BtState) (row : BtRow) :
    (st.position = 2 → row.sell50Sig = true →
      backtestStep st row =
        ⟨1, st.cash + st.coins * (1 / 2) * row.price,
          st.coins - st.coins * (1 / 2),
          st.trades ++ [⟨.sell50, row.price, st.coins * (1 / 2),
            st.coins * (1 / 2) * row.price⟩]⟩) ∧
    (st.position = 1 → row.sellAllSig = true →
      backtestStep st row =
        ⟨0, st.cash + st.coins * row.price, 0,
          st.trades ++ [⟨.sellAllAct, row.price, st.coins,
            st.coins * row.price⟩]⟩) ∧
    (st.position ≠ 0 → ∀ t ∈ (backtestStep st row).trades,
      t ∈ st.trades ∨ t.action ≠ .buy) := by
  refine ⟨?_, ?_, ?_⟩
  · intro h2 h50
    unfold backtestStep
    rw [if_neg (by simp [h2]), if_pos ⟨h50, h2⟩]
  · intro h1 hall
    unfold backtestStep
    rw [if_neg (by simp [h1]), if_neg (by simp [h1]),
      if_pos ⟨hall, by simp [h1]⟩]
  · intro h0 t ht
    unfold backtestStep at ht
    split_ifs at ht with h1 h2 h3
    · exact absurd h1.2 h0
    · rcases List.mem_append.mp ht with h | h
      · exact Or.inl h
      · right
        rw [List.mem_singleton.mp h]
        simp
    · rcases List.mem_append.mp ht with h | h
      · exact Or.inl h
      · right
        rw [List.mem_singleton.mp h]
        simp
    · exact Or.inl ht

/-- Witness for the amended C2 at concrete inputs: from FULL with 10 coins
and both sell signals true at price 150, SELL_50 is applied. -/
theorem backtestStep_priority_witness :
    backtestStep ⟨2, 0, 10, []⟩ ⟨150, false, true, true⟩ =
      ⟨1, 0 + 10 * (1 / 2) * 150, 10 - 10 * (1 / 2),
        [⟨.sell50, 150, 10 * (1 / 2), 10 * (1 / 2) * 150⟩]⟩ := by
  exact (backtestStep_priority ⟨2, 0, 10, []⟩ ⟨150, false, true, true⟩).1 rfl rfl

theorem backtestStep_keep (st : BtState) (r : BtRow) (hpos : st.position ≠ 0)
    (h5 : r.sell50Sig = false) (ha : r.sellAllSig = false) :
    backtestStep st r = st := by
  unfold backtestStep
  rw [if_neg (by simp [hpos]), if_neg (by simp [h5]), if_neg (by simp [ha])]

theorem backtestStep_no_signal (st : BtState) (r : BtRow)
    (hb : r.buySig = false) (h5 : r.sell50Sig = false)
    (ha : r.sellAllSig = false) :
    backtestStep st r = st := by
  unfold backtestStep
  rw [if_neg (by simp [hb]), if_neg (by simp [h5]), if_neg (by simp [ha])]

theorem foldl_no_signal (rows : List BtRow) (st : BtState)
    (h : ∀ r ∈ rows, r.buySig = false ∧ r.sell50Sig = false ∧
      r.sellAllSig = false) :
    rows.foldl backtestStep st = st := by
  induction rows generalizing st with
  | nil => rfl
  | cons r rest ih =>
      obtain ⟨hb, h5, ha⟩ := h r (List.mem_cons_self r rest)
      rw [List.foldl_cons, backtestStep_no_signal st r hb h5 ha]
      exact ih st fun x hx => h x (List.mem_cons_of_mem r hx)

theorem foldl_keep (rows : List BtRow) (st : BtState) (hpos : st.position ≠ 0)
    (h : ∀ r ∈ rows, r.sell50Sig = false ∧ r.sellAllSig = false) :
    rows.foldl backtestStep st = st := by
  induction rows generalizing st with
  | nil => rfl
  | cons r rest ih =>
      obtain ⟨h5, ha⟩ := h r (List.mem_cons_self r rest)
      rw [List.foldl_cons, backtestStep_keep st r hpos h5 ha]
      exact ih st hpos fun x hx => h x (List.mem_cons_of_mem r hx)

/-- C7: on a series where no buy, sell_50 or sell_all signal fires at any
bar, the backtest ends with final cash exactly the initial capital and an
empty trade log. -/
theorem backtest_no_signal_conservation (initial : ℚ) (rows : List BtRow)
    (h : ∀ r ∈ rows, r.buySig = false ∧ r.sell50Sig = false ∧
      r.sellAllSig = false) :
    finalCashOf initial rows = initial ∧
    (runBacktestState initial rows).trades = [] := by
  have hrun : runBacktestState initial rows = ⟨0, initial, 0, []⟩ :=
    foldl_no_signal rows ⟨0, initial, 0, []⟩ h
  constructor
  · unfold finalCashOf
    rw [hrun]
    exact if_neg (lt_irrefl 0)
  · rw [hrun]

/-- Witness for C7 at a concrete input: a two-bar signal-free series leaves
the initial capital untouched. -/
theorem backtest_no_signal_conservation_witness :
    finalCashOf 1000000
      [⟨100, false, false, false⟩, ⟨90, false, false, false⟩] = 1000000 ∧
    (runBacktestState 1000000
      [⟨100, false, false, false⟩, ⟨90, false, false, false⟩]).trades = [] := by
  refine backtest_no_signal_conservation 1000000 _ ?_
  intro r hr
  simp only [List.mem_cons, List.not_mem_nil, or_false] at hr
  rcases hr with rfl | rfl
  · exact ⟨rfl, rfl, rfl⟩
  · exact ⟨rfl, rfl, rfl⟩

/-- C10 counterexample: BUY at bar 0, SELL_50 at bar 1, series ends with the
position still open (coins > 0, liquidated into final cash 1,500,000) —
yet that BUY *is* paired into a completed round-trip by `_analyze_trades`
(total_trades = 1), contradicting the claim that a BUY whose position is
still open at series end is excluded from total_trades. -/
theorem open_buy_counted_cex :
    0 < (runBacktestState 1000000
      [⟨100, true, false, false⟩, ⟨150, false, true, false⟩]).coins ∧
    totalTradesOf (runBacktestState 1000000
      [⟨100, true, false, false⟩, ⟨150, false, true, false⟩]).trades = 1 ∧
    finalCashOf 1000000
      [⟨100, true, false, false⟩, ⟨150, false, true, false⟩] = 1500000 := by
  refine ⟨?_, ?_, ?_⟩ <;>
    norm_num [runBacktestState, backtestStep, totalTradesOf, analyzeTrades,
      analyzeTradesGo, finalCashOf, lastClose]

/-- C10 (amended): the end-of-series forced liquidation adds the remaining
coins times the final close to cash and appends no trade record; hence a BUY
followed by *no sell record at all* (no sell_50/sell_all signal fires after
it) yields an empty completed-trade list — excluded from total_trades — even
though its liquidation value `initial / buy_price * last_close` is the
entire final cash. -/
theorem backtest_open_buy_excluded (initial : ℚ) (r : BtRow)
    (rest : List BtRow) (hb : r.buySig = true) (hp : 0 < r.price)
    (hc : 0 < initial)
    (hns : ∀ x ∈ r :: rest, x.sell50Sig = false ∧ x.sellAllSig = false) :
    (runBacktestState initial (r :: rest)).trades =
      [⟨.buy, r.price, initial / r.price, initial⟩] ∧
    analyzeTrades (runBacktestState initial (r :: rest)).trades = [] ∧
    totalTradesOf (runBacktestState initial (r :: rest)).trades = 0 ∧
    finalCashOf initial (r :: rest) =
      initial / r.price * lastClose (r :: rest) := by
  have hstep : backtestStep ⟨0, initial, 0, []⟩ r =
      ⟨2, 0, initial / r.price, [⟨.buy, r.price, initial / r.price, initial⟩]⟩ := by
    unfold backtestStep
    rw [if_pos ⟨hb, rfl⟩]
    rfl
  have hrun : runBacktestState initial (r :: rest) =
      ⟨2, 0, initial / r.price, [⟨.buy, r.price, initial / r.price, initial⟩]⟩ := by
    unfold runBacktestState
    rw [List.foldl_cons, hstep]
    exact foldl_keep rest _ (by simp)
      fun x hx => hns x (List.mem_cons_of_mem r hx)
  have hcoins : (0 : ℚ) < initial / r.price := div_pos hc hp
  refine ⟨by rw [hrun], by rw [hrun]; rfl, by rw [hrun]; rfl, ?_⟩
  unfold finalCashOf
  rw [hrun]
  simp only
  rw [if_pos hcoins, zero_add]

/-- Witness for the amended C10 at concrete inputs: BUY at 100, no further
signals, final close 200 — no completed trades, but final cash is the
liquidation value 2,000,000. -/
theorem backtest_open_buy_excluded_witness :
    (runBacktestState 1000000
      [⟨100, true, false, false⟩, ⟨200, false, false, false⟩]).trades =
      [⟨.buy, 100, 1000000 / 100, 1000000⟩] ∧
    analyzeTrades (runBacktestState 1000000
      [⟨100, true, false, false⟩, ⟨200, false, false, false⟩]).trades = [] ∧
    totalTradesOf (runBacktestState 1000000
      [⟨100, true, false, false⟩, ⟨200, false, false, false⟩]).trades = 0 ∧
    finalCashOf 1000000
      [⟨100, true, false, false⟩, ⟨200, false, false, false⟩] =
      1000000 / 100 * lastClose
        [⟨100, true, false, false⟩, ⟨200, false, false, false⟩] := by
  refine backtest_open_buy_excluded 1000000 ⟨100, true, false, false⟩
    [⟨200, false, false, false⟩] rfl (by norm_num) (by norm_num) ?_
  intro x hx
  simp only [List.mem_cons, List.not_mem_nil, or_false] at hx
  rcases hx with rfl | rfl
  · exact ⟨rfl, rfl⟩
  · exact ⟨rfl, rfl⟩

end UpbitSqueeze
